import Mathlib

/-!
Verification development for the `msi_gamecontroller_cli` repository.

The repository has two source files:
  * `src/JoystickInput/JoystickInput.cpp` — native console tool that merges
    XInput (polled, 4 slots) and DirectInput (event-capable) controllers into
    one indexed catalog and streams the selected controller's state.
  * `src/web/joystick_web.cpp` — Emscripten build that lists browser gamepads
    and streams the selected one's state once per animation frame.

The definitions below are a shallow embedding of those functions.  Platform
providers (XInput connectivity, DirectInput enumeration and device reads, the
browser gamepad probe, the wait primitive) are opaque inputs in the source, so
here they appear as explicit parameters: a connectivity predicate for the four
XInput slots, a list of DirectInput device instances, scripts of wait/read
results for the streaming loops, and a slot-probe function for the browser.
Console output is modelled as lists of output events / strings.
-/

/-! ### Name-based duplicate filter (`IsLikelyXInputDuplicate`) -/

/-- ASCII lowering of one character, the effect of `towlower` on the
characters relevant to the filter patterns (source line 179). -/
def towlowerA (c : Char) : Char :=
  if 'A' ≤ c ∧ c ≤ 'Z' then Char.ofNat (c.toNat + 32) else c

/-- Case-folded character list of a device name (`std::transform` with
`towlower`, source line 179). -/
def lowerName (s : String) : List Char :=
  s.toList.map towlowerA

/-- Whether `hay` starts with `pat` (character-wise). -/
def listStarts : List Char → List Char → Bool
  | _, [] => true
  | [], _ :: _ => false
  | h :: t, p :: ps => h = p && listStarts t ps

/-- Whether `pat` occurs as a contiguous substring of `hay`; this is
`std::wstring::find(pat) != npos` (source lines 180-183). -/
def hasSubstr (pat : List Char) : List Char → Bool
  | [] => pat.isEmpty
  | c :: t => listStarts (c :: t) pat || hasSubstr pat t

/-- Embedding of `IsLikelyXInputDuplicate` (source lines 176-185): the name is
case-folded and the three literal patterns are tested with early returns. -/
def IsLikelyXInputDuplicate (name : String) : Bool :=
  let lname := lowerName name
  if hasSubstr "xinput".toList lname then true
  else if hasSubstr "(xbox".toList lname then true
  else if hasSubstr "ig_".toList lname then true
  else false

/-- Spec-side formulation of the duplicate filter, following the spec's words:
the device is excluded iff its case-folded name contains `"xinput"`,
`"(xbox"`, or `"ig_"` as a substring. -/
def specNameFilterExcludes (name : String) : Bool :=
  hasSubstr "xinput".toList (lowerName name)
    || hasSubstr "(xbox".toList (lowerName name)
    || hasSubstr "ig_".toList (lowerName name)

/-! ### Native device enumeration (`EnumerateDevices`) -/

/-- API used for a catalog entry (source lines 57-60). -/
inductive DeviceKind where
  | XInput
  | DirectInput
deriving DecidableEq, Inhabited, Repr

/-- A DirectInput device instance as handed to the enumeration callback:
product name plus the opaque instance GUID (modelled as a number). -/
structure DIDev where
  name : String
  guid : Nat
deriving DecidableEq, Inhabited, Repr

/-- Embedding of `DeviceInfo` (source lines 65-73). -/
structure DeviceInfo where
  index : Nat
  kind : DeviceKind
  name : String
  xinputUser : Nat
  diGuid : Nat
deriving DecidableEq, Inhabited, Repr

/-- The XInput half of the scan (source lines 228-236): slots 0..3 whose
connectivity probe succeeds, in slot order, with the generated display name. -/
def xinputDevices (xconn : Nat → Bool) : List DeviceInfo :=
  (List.range 4).filterMap fun i =>
    if xconn i then
      some { index := 0, kind := .XInput,
             name := "XInput Controller " ++ toString i,
             xinputUser := i, diGuid := 0 }
    else none

/-- The DirectInput enumeration callback applied to each attached device
(source lines 200-215): likely XInput proxies are skipped, survivors are
appended with their name and instance GUID. -/
def diDevices (l : List DIDev) : List DeviceInfo :=
  l.filterMap fun d =>
    if IsLikelyXInputDuplicate d.name then none
    else some { index := 0, kind := .DirectInput, name := d.name,
                xinputUser := 0, diGuid := d.guid }

/-- Final index assignment pass (source lines 247-249): positions in append
order, starting at `i`. -/
def assignIndices : Nat → List DeviceInfo → List DeviceInfo
  | _, [] => []
  | i, d :: rest => { d with index := i } :: assignIndices (i + 1) rest

/-- Embedding of `EnumerateDevices` (source lines 224-251).  `xconn` is the
XInput connectivity probe for slots 0..3; `dis` is the DirectInput provider:
`none` when `DirectInput8Create` fails (the catalog silently degrades to
XInput only), otherwise the list of attached game-controller instances. -/
def EnumerateDevices (xconn : Nat → Bool) (dis : Option (List DIDev)) :
    List DeviceInfo :=
  assignIndices 0 (xinputDevices xconn ++
    match dis with
    | none => []
    | some l => diDevices l)

/-- Number of DirectInput devices surviving the duplicate filter (zero when
the provider failed to initialize). -/
def diSurvivors (dis : Option (List DIDev)) : Nat :=
  match dis with
  | none => 0
  | some l => (l.filter fun d => ! IsLikelyXInputDuplicate d.name).length

/-! ### Web device enumeration (`UpdateGamepadList`) -/

/-- One browser gamepad slot's data as returned by
`emscripten_get_gamepad_status`: identifier, mapping, connection flag, axis
values (in integer thousandths, see `renderMilli`), digital buttons, analog
button values, timestamp. -/
structure GamepadProbe where
  id : String
  mapping : String
  connected : Bool
  axes : List Int
  buttons : List Bool
  analog : List Int
  timestamp : Int
deriving DecidableEq, Inhabited, Repr

/-- Embedding of `GamepadInfo` (web source lines 25-32). -/
structure GamepadInfo where
  index : Nat
  id : String
  mapping : String
  connected : Bool
  numButtons : Nat
  numAxes : Nat
deriving DecidableEq, Inhabited, Repr

/-- The browser environment: how many slots `emscripten_sample_gamepad_data`
reports and the per-slot probe (`none` models a non-success result). -/
structure BrowserEnv where
  numGamepads : Nat
  probe : Nat → Option GamepadProbe

/-- Body of the `UpdateGamepadList` scan for one slot (web source lines
82-95): the slot contributes an entry iff the status call succeeds and the
pad is connected; the stored `index` is the raw slot number `i`. -/
def webEntry (probe : Nat → Option GamepadProbe) (i : Nat) :
    Option GamepadInfo :=
  match probe i with
  | some g =>
      if g.connected then
        some { index := i, id := g.id, mapping := g.mapping, connected := true,
               numButtons := g.buttons.length, numAxes := g.axes.length }
      else none
  | none => none

/-- Embedding of `UpdateGamepadList` (web source lines 76-97). -/
def UpdateGamepadList (env : BrowserEnv) : List GamepadInfo :=
  (List.range env.numGamepads).filterMap (webEntry env.probe)

/-- Whether a probed slot counts as connected for the catalog. -/
def connOk : Option GamepadProbe → Bool
  | some g => g.connected
  | none => false

/-! ### Helper lemmas for the enumeration claims -/

lemma assignIndices_length (l : List DeviceInfo) :
    ∀ i, (assignIndices i l).length = l.length := by
  induction l with
  | nil => intro i; rfl
  | cons d rest ih => intro i; simp [assignIndices, ih]

lemma assignIndices_map_index (l : List DeviceInfo) :
    ∀ i, (assignIndices i l).map DeviceInfo.index = List.range' i l.length := by
  induction l with
  | nil => intro i; rfl
  | cons d rest ih =>
      intro i
      simp [assignIndices, List.range'_succ, ih]

lemma xinputDevices_length (xconn : Nat → Bool) :
    (xinputDevices xconn).length = ((List.range 4).filter xconn).length := by
  unfold xinputDevices
  generalize List.range 4 = l
  induction l with
  | nil => rfl
  | cons a t ih =>
      by_cases h : xconn a = true
      · simp [List.filterMap_cons, List.filter_cons, h, ih]
      · simp only [Bool.not_eq_true] at h
        simp [List.filterMap_cons, List.filter_cons, h, ih]

lemma diDevices_length (l : List DIDev) :
    (diDevices l).length
      = (l.filter fun d => ! IsLikelyXInputDuplicate d.name).length := by
  induction l with
  | nil => rfl
  | cons d t ih =>
      by_cases h : IsLikelyXInputDuplicate d.name = true
      · simpa [diDevices, List.filterMap_cons, List.filter_cons, h] using ih
      · simp only [Bool.not_eq_true] at h
        simpa [diDevices, List.filterMap_cons, List.filter_cons, h] using ih

lemma webList_map_index (probe : Nat → Option GamepadProbe)
    (l : List Nat) :
    (l.filterMap (webEntry probe)).map GamepadInfo.index
      = l.filter fun i => connOk (probe i) := by
  induction l with
  | nil => rfl
  | cons a t ih =>
      cases h : probe a with
      | none =>
          simp [List.filterMap_cons, List.filter_cons, webEntry, h, connOk, ih]
      | some g =>
          by_cases hc : g.connected = true
          · simp [List.filterMap_cons, List.filter_cons, webEntry, h, connOk,
              hc, ih]
          · simp only [Bool.not_eq_true] at hc
            simp [List.filterMap_cons, List.filter_cons, webEntry, h, connOk,
              hc, ih]

/-- An early-return chain of three boolean tests equals their disjunction. -/
lemma ifChainOr (a b c : Bool) :
    (if a then true else if b then true else if c then true else false)
      = (a || b || c) := by
  cases a <;> cases b <;> cases c <;> rfl

/-! ### Claim C2 -/

/-- C2 (confirmed).  The duplicate filter excludes a device exactly when its
case-folded name contains `"xinput"`, `"(xbox"`, or `"ig_"` as a substring;
in particular `"Xbox 360 Controller (XInput STANDARD GAMEPAD)"` is excluded
and `"Logitech Extreme 3D Pro"` is retained. -/
theorem C2_name_filter_iff :
    (∀ name : String,
        IsLikelyXInputDuplicate name = specNameFilterExcludes name)
      ∧ IsLikelyXInputDuplicate "Xbox 360 Controller (XInput STANDARD GAMEPAD)"
          = true
      ∧ IsLikelyXInputDuplicate "Logitech Extreme 3D Pro" = false := by
  refine ⟨?_, by decide, by decide⟩
  intro name
  exact ifChainOr (hasSubstr "xinput".toList (lowerName name))
    (hasSubstr "(xbox".toList (lowerName name))
    (hasSubstr "ig_".toList (lowerName name))

/-! ### Claim C1 -/

/-- C1 counterexample environment: two browser slots, slot 0 present but
disconnected, slot 1 connected. -/
def envC1 : BrowserEnv where
  numGamepads := 2
  probe := fun i =>
    match i with
    | 0 => some { id := "Pad A", mapping := "standard", connected := false,
                  axes := [], buttons := [], analog := [], timestamp := 0 }
    | 1 => some { id := "Pad B", mapping := "standard", connected := true,
                  axes := [0, 0], buttons := [false], analog := [0],
                  timestamp := 0 }
    | _ => none

/-- C1 (counterexample).  The web `UpdateGamepadList` stores the raw browser
slot number as `index` and appends only connected slots, so with slot 0
disconnected and slot 1 connected the produced catalog has one entry whose
index is 1 — not the contiguous zero-based `0..N-1` the claim requires. -/
theorem C1_web_index_counterexample :
    (UpdateGamepadList envC1).map GamepadInfo.index = [1]
      ∧ (UpdateGamepadList envC1).length = 1
      ∧ ([1] : List Nat) ≠ List.range 1 := by
  refine ⟨by decide, by decide, by decide⟩

/-- C1 (amended).  Native `EnumerateDevices`: the indices carried by the
returned descriptors are exactly `0..N-1` in order, and `N` equals the number
of connected polled-API slots (of the 4 probed) plus the number of
event-capable devices surviving the name filter.  Web `UpdateGamepadList`:
the indices are exactly the connected browser slot numbers in increasing
order — unique and sorted, but zero-based and contiguous only when every
probed slot is connected. -/
theorem C1_enumeration_indices (xconn : Nat → Bool)
    (dis : Option (List DIDev)) (env : BrowserEnv) :
    (EnumerateDevices xconn dis).map DeviceInfo.index
        = List.range (EnumerateDevices xconn dis).length
      ∧ (EnumerateDevices xconn dis).length
          = ((List.range 4).filter xconn).length + diSurvivors dis
      ∧ (UpdateGamepadList env).map GamepadInfo.index
          = (List.range env.numGamepads).filter fun i => connOk (env.probe i)
      := by
  refine ⟨?_, ?_, ?_⟩
  · unfold EnumerateDevices
    rw [assignIndices_map_index, assignIndices_length, List.range_eq_range']
  · unfold EnumerateDevices diSurvivors
    cases dis with
    | none =>
        simp [assignIndices_length, xinputDevices_length]
    | some l =>
        simp [assignIndices_length, xinputDevices_length, diDevices_length]
  · unfold UpdateGamepadList
    exact webList_map_index env.probe (List.range env.numGamepads)

/-! ### Web state reading and formatting -/

/-- Embedding of `GamepadState` (web source lines 37-43).  Axis and analog
button values are carried in integer thousandths of the browser's `[-1,1]`
unit range: the formatter truncates `axis * 1000` to an integer before
rendering (web source line 61), so thousandths are exactly the information
the formatted output depends on. -/
structure GamepadState where
  index : Int
  axes : List Int
  buttons : List Bool
  buttonValues : List Int
  timestamp : Int
deriving DecidableEq, Inhabited, Repr

/-- Embedding of `GetGamepadState` (web source lines 104-127): on a
successful status call for a connected pad the axes and buttons are copied;
otherwise the state keeps its empty defaults.  A negative index models the
error result the status call returns for it. -/
def GetGamepadState (env : BrowserEnv) (index : Int) : GamepadState :=
  let base : GamepadState :=
    { index := index, axes := [], buttons := [], buttonValues := [],
      timestamp := 0 }
  match (if 0 ≤ index then env.probe index.toNat else none) with
  | some g =>
      if g.connected then
        { index := index, axes := g.axes, buttons := g.buttons,
          buttonValues := g.analog.take g.buttons.length,
          timestamp := g.timestamp }
      else base
  | none => base

/-- Zero-pads a digit string on the left to width `w`. -/
def padZeros (w : Nat) (s : String) : String :=
  String.mk (List.replicate (w - s.length) '0') ++ s

/-- Renders an axis value of `a` thousandths the way
`std::to_string(static_cast<int>(axis * 1000) / 1000.0)` does (web source
line 61): sign, integer part, and exactly six decimal digits. -/
def renderMilli (a : Int) : String :=
  (if a < 0 then "-" else "")
    ++ toString (a.natAbs / 1000) ++ "."
    ++ padZeros 6 (toString (a.natAbs % 1000 * 1000))

/-- The axes section of the formatted line (web source lines 58-62):
`"A<i>=<value> "` for each axis in order. -/
def axesStr : Nat → List Int → String
  | _, [] => ""
  | i, a :: rest => "A" ++ toString i ++ "=" ++ renderMilli a ++ " "
      ++ axesStr (i + 1) rest

/-- The buttons section of the formatted line (web source lines 65-68):
one `'1'`/`'0'` per button. -/
def buttonsStr : List Bool → String
  | [] => ""
  | b :: rest => (if b then "1" else "0") ++ buttonsStr rest

/-- Embedding of `FormatGamepadState` (web source lines 54-71). -/
def FormatGamepadState (state : GamepadState) : String :=
  "Gamepad " ++ toString state.index ++ ": "
    ++ "AXES: " ++ axesStr 0 state.axes
    ++ "| BUTTONS: " ++ buttonsStr state.buttons

/-! ### Web module state machine -/

/-- The web module's global state: the cached gamepad list, the streaming
flag, and the selected index (web source lines 45-47). -/
structure WebState where
  gamepads : List GamepadInfo
  streaming : Bool
  selected : Int
deriving DecidableEq, Inhabited

/-- Initial global state (web source lines 45-47): empty list, not
streaming, selected index `-1`. -/
def initWebState : WebState :=
  { gamepads := [], streaming := false, selected := -1 }

/-- The exported operations of the web module.  Operations that sample the
browser take the environment visible to that call. -/
inductive WebOp where
  | listOp (env : BrowserEnv)
  | startOp (env : BrowserEnv) (idx : Int)
  | stopOp
  | pumpOp (env : BrowserEnv)

/-- Embedding of `UpdateGamepadState` / `pumpOneFrame` (web source lines
193-208) as the line it emits, if any: nothing unless streaming with a
non-negative selection; otherwise the selected pad's state is read and a
formatted line is emitted exactly when the read state has any axis or
button. -/
def UpdateGamepadState (s : WebState) (env : BrowserEnv) : Option String :=
  if s.streaming = false ∨ s.selected < 0 then none
  else
    let state := GetGamepadState env s.selected
    if state.axes ≠ [] ∨ state.buttons ≠ [] then
      some (FormatGamepadState state)
    else none

/-- State transition of each exported operation: `ListGamepads` (web lines
138-154) refreshes the list; `StartStreaming` (lines 162-178) refreshes the
list, validates the index, and on success selects it and sets the flag;
`StopStreaming` (lines 184-188) clears both; `UpdateGamepadState` (lines
194-208) only emits output and leaves the state unchanged. -/
def applyOp (s : WebState) : WebOp → WebState
  | .listOp env => { s with gamepads := UpdateGamepadList env }
  | .startOp env idx =>
      let g := UpdateGamepadList env
      if idx < 0 ∨ (g.length : Int) ≤ idx then { s with gamepads := g }
      else { gamepads := g, streaming := true, selected := idx }
  | .stopOp => { s with streaming := false, selected := -1 }
  | .pumpOp _ => s

/-- Runs a sequence of exported operations from a state, collecting the
stream lines emitted by the pump calls. -/
def runOps (s : WebState) : List WebOp → WebState × List (Option String)
  | [] => (s, [])
  | op :: rest =>
      let out := match op with
        | .pumpOp env => [UpdateGamepadState s env]
        | _ => []
      let r := runOps (applyOp s op) rest
      (r.1, out ++ r.2)

/-- Embedding of `IsStreaming` (web source lines 215-217). -/
def IsStreaming (s : WebState) : Nat :=
  if s.streaming then 1 else 0

/-- Embedding of `GetSelectedGamepad` (web source lines 224-226). -/
def GetSelectedGamepad (s : WebState) : Int :=
  s.selected

/-! ### Claim C9 -/

/-- C9 (confirmed).  The formatter is a pure function of the snapshot: its
output is fully determined by the index, axes and buttons fields (identical
snapshots — in particular snapshots differing only in `buttonValues` or
`timestamp` — yield identical strings), and on a snapshot with zero axes and
zero buttons it does not fail but renders the empty-but-well-formed line
`"Gamepad 0: AXES: | BUTTONS: "`. -/
theorem C9_format_pure_total :
    (∀ s t : GamepadState, s.index = t.index → s.axes = t.axes →
        s.buttons = t.buttons → FormatGamepadState s = FormatGamepadState t)
      ∧ FormatGamepadState
          { index := 0, axes := [], buttons := [], buttonValues := [],
            timestamp := 0 }
          = "Gamepad 0: AXES: | BUTTONS: " := by
  constructor
  · intro s t hi ha hb
    unfold FormatGamepadState
    rw [hi, ha, hb]
  · rfl

/-- C9 witness: two concrete snapshots that differ in `buttonValues` and
`timestamp` but share index, axes and buttons format identically. -/
theorem C9_format_pure_total_witness :
    FormatGamepadState
        { index := 2, axes := [500], buttons := [true], buttonValues := [7],
          timestamp := 3 }
      = FormatGamepadState
          { index := 2, axes := [500], buttons := [true], buttonValues := [0],
            timestamp := 99 } :=
  C9_format_pure_total.1 _ _ rfl rfl rfl

/-! ### Claim C10 -/

/-- The invariant the claim states: the streaming flag is set iff the
selected index is non-negative. -/
def streamInv (s : WebState) : Prop :=
  s.streaming = true ↔ 0 ≤ s.selected

lemma applyOp_streamInv (s : WebState) (op : WebOp) (h : streamInv s) :
    streamInv (applyOp s op) := by
  cases op with
  | listOp env => exact h
  | startOp env idx =>
      by_cases hr : idx < 0 ∨ ((UpdateGamepadList env).length : Int) ≤ idx
      · simpa [applyOp, streamInv, hr] using h
      · have h0 : 0 ≤ idx := by push_neg at hr; exact hr.1
        simp [applyOp, streamInv, hr, h0]
  | stopOp =>
      unfold applyOp streamInv
      simp
  | pumpOp env => exact h

lemma foldl_streamInv (ops : List WebOp) :
    ∀ s : WebState, streamInv s → streamInv (ops.foldl applyOp s) := by
  induction ops with
  | nil => intro s h; exact h
  | cons op rest ih =>
      intro s h
      exact ih (applyOp s op) (applyOp_streamInv s op h)

/-- C10 (confirmed).  From the initial state, every sequence of exported
operations preserves the invariant that the streaming flag is set iff the
selected gamepad index is non-negative; consequently `IsStreaming` returns 1
exactly when `GetSelectedGamepad` returns a value `≥ 0`. -/
theorem C10_streaming_invariant (ops : List WebOp) :
    ((ops.foldl applyOp initWebState).streaming = true
        ↔ 0 ≤ (ops.foldl applyOp initWebState).selected)
      ∧ (IsStreaming (ops.foldl applyOp initWebState) = 1
        ↔ 0 ≤ GetSelectedGamepad (ops.foldl applyOp initWebState)) := by
  have hinit : streamInv initWebState := by
    unfold streamInv initWebState
    decide
  have h := foldl_streamInv ops initWebState hinit
  refine ⟨h, ?_⟩
  unfold IsStreaming GetSelectedGamepad
  by_cases hs : (ops.foldl applyOp initWebState).streaming = true
  · simp [hs, h.mp hs]
  · simp only [Bool.not_eq_true] at hs
    simp only [hs]
    constructor
    · intro hcontra; simp at hcontra
    · intro hsel
      exact absurd (h.mpr hsel) (by simp [hs])

/-! ### Claim C8 -/

/-- C8 counterexample environment: one browser slot with a connected pad
whose state never changes between frames. -/
def envC8 : BrowserEnv where
  numGamepads := 1
  probe := fun i =>
    match i with
    | 0 => some { id := "Pad", mapping := "standard", connected := true,
                  axes := [100], buttons := [false], analog := [0],
                  timestamp := 1 }
    | _ => none

/-- C8 counterexample state: streaming pad 0 after a successful start. -/
def sC8 : WebState :=
  { gamepads := UpdateGamepadList envC8, streaming := true, selected := 0 }

/-- C8 (counterexample).  `UpdateGamepadState` performs no comparison with
the previous frame: two consecutive pump calls over an unchanged device
state both emit the (identical) formatted line, whereas the claim requires
the second call to emit nothing. -/
theorem C8_no_change_detection_counterexample :
    (runOps sC8 [.pumpOp envC8, .pumpOp envC8]).2
      = [some "Gamepad 0: AXES: A0=0.100000 | BUTTONS: 0",
         some "Gamepad 0: AXES: A0=0.100000 | BUTTONS: 0"] := by
  rfl

/-- C8 (amended).  Each pump call while streaming performs the read/format
step exactly once and leaves the module state unchanged, but it emits a
formatted line whenever the read state has at least one axis or button —
no comparison with the previous iteration is made, so an unchanged state
still emits a line on every frame: over any sequence of frames with the same
environment, every frame produces the same output. -/
theorem C8_pump_reads_once_no_compare (s : WebState) (env : BrowserEnv)
    (hs : s.streaming = true) (hi : 0 ≤ s.selected) :
    UpdateGamepadState s env
        = (if (GetGamepadState env s.selected).axes ≠ []
              ∨ (GetGamepadState env s.selected).buttons ≠ [] then
             some (FormatGamepadState (GetGamepadState env s.selected))
           else none)
      ∧ applyOp s (.pumpOp env) = s
      ∧ ∀ n : Nat,
          (runOps s (List.replicate n (.pumpOp env))).2
            = List.replicate n (UpdateGamepadState s env) := by
  refine ⟨?_, rfl, ?_⟩
  · unfold UpdateGamepadState
    have : ¬ (s.streaming = false ∨ s.selected < 0) := by
      push_neg
      exact ⟨by simp [hs], by omega⟩
    simp only [this, if_false]
  · intro n
    induction n with
    | zero => rfl
    | succ m ih =>
        simp [List.replicate_succ, runOps, applyOp, ih]

/-- C8 amended-claim witness: the amended theorem applied to the concrete
streaming state and environment of the counterexample, showing three
identical frames each emit the same line. -/
theorem C8_pump_reads_once_no_compare_witness :
    (runOps sC8 (List.replicate 3 (.pumpOp envC8))).2
      = List.replicate 3 (UpdateGamepadState sC8 envC8) :=
  (C8_pump_reads_once_no_compare sC8 envC8 rfl (by decide)).2.2 3

/-! ### Polled-mode streaming loop (`RunXInputReader`) -/

/-- One iteration's environment for the polled loop: the stop flag observed
at the top of the iteration and the result of `XInputGetState` — `none` for
a non-success return (disconnect), `some pkt` for success with packet number
`pkt`. -/
structure XIter where
  running : Bool
  read : Option Nat
deriving DecidableEq, Repr

/-- Result of a run of the polled loop: one emission flag per successful
read (whether that read produced a formatted line), the error-stream
messages, and the exit code — `none` models a script that ends while the
loop would still be running. -/
structure XRunOut where
  emitFlags : List Bool
  msgs : List String
  exit : Option Nat
deriving DecidableEq, Repr

/-- Embedding of the `RunXInputReader` loop (source lines 333-350), driven
by a script of per-iteration provider results.  `lastPacket` starts at 0
(source line 331).  A read prints exactly when its packet number differs
from the remembered one, which is then updated (lines 341-344); a failed
read prints the disconnect notice and exits 1 (lines 336-339); a false stop
flag exits 0 (lines 333 and 350). -/
def RunXInputReader (lastPacket : Nat) : List XIter → XRunOut
  | [] => { emitFlags := [], msgs := [], exit := none }
  | it :: rest =>
      if it.running = false then
        { emitFlags := [], msgs := [], exit := some 0 }
      else
        match it.read with
        | none =>
            { emitFlags := [], msgs := ["Controller disconnected."],
              exit := some 1 }
        | some pkt =>
            let r := RunXInputReader
              (if pkt != lastPacket then pkt else lastPacket) rest
            { emitFlags := (pkt != lastPacket) :: r.emitFlags,
              msgs := r.msgs, exit := r.exit }

lemma updateLastPacket (lastPacket pkt : Nat) :
    (if pkt != lastPacket then pkt else lastPacket) = pkt := by
  by_cases h : pkt = lastPacket <;> simp [h]

lemma updateLastPacket' (lastPacket pkt : Nat) :
    (if pkt = lastPacket then lastPacket else pkt) = pkt := by
  by_cases h : pkt = lastPacket <;> simp [h]

/-! ### Event-capable streaming loop (`RunDirectInputReader`) -/

/-- Result of `WaitForSingleObject` on the notification event (source line
435): signaled, timed out, or failed. -/
inductive WaitResult where
  | wSignal
  | wTimeout
  | wFailed
deriving DecidableEq, Repr

/-- Result of a `GetDeviceState` call: success, a state-lost condition
(`DIERR_INPUTLOST` or `DIERR_NOTACQUIRED`), or any other failure. -/
inductive HResult where
  | hOk
  | hLost
  | hFailOther
deriving DecidableEq, Repr

/-- Result of one `GetDeviceData` call inside the buffered drain (source
lines 440-449): a state-lost condition (re-acquire and retry), success with
items remaining (keep draining), or a terminating result (other failure or
zero items — break). -/
inductive DrainResult where
  | dLost
  | dMore
  | dDone
deriving DecidableEq, Repr

/-- One iteration's environment for the event-capable loop: the stop flag,
the wait result, the script of buffered-drain results (used on the signal
path), and the `GetDeviceState` result (used by whichever path reads). -/
structure DIIter where
  running : Bool
  wait : WaitResult
  drain : List DrainResult
  readState : HResult
deriving Repr

/-- Number of `Acquire` calls the buffered drain performs (source lines
440-449): one per state-lost result until the first terminating result. -/
def drainAcquires : List DrainResult → Nat
  | [] => 0
  | .dLost :: r => drainAcquires r + 1
  | .dMore :: r => drainAcquires r
  | .dDone :: _ => 0

/-- Observable effect of one loop-body iteration (`diIter`): lines emitted,
`Acquire` calls made, whether the loop breaks, and messages printed. -/
structure IterOut where
  emits : Nat
  acquires : Nat
  breaks : Bool
  msgs : List String
deriving DecidableEq, Repr

/-- Embedding of one iteration of the `RunDirectInputReader` event loop body
(source lines 435-477).  Signal path: drain the buffer (re-acquiring on each
state-lost result), then read the full state — on state lost re-acquire once
and continue without emitting (lines 453-456), on success emit one line
(lines 457-459), on any other failure emit nothing and continue.  Timeout
path: lightweight read — on state lost re-acquire once (lines 465-467), on
another failure print the disconnect notice and break (lines 468-471).
Wait-failure path: print the failure notice and break (lines 473-477). -/
def diIter (it : DIIter) : IterOut :=
  match it.wait with
  | .wSignal =>
      let da := drainAcquires it.drain
      match it.readState with
      | .hLost => { emits := 0, acquires := da + 1, breaks := false, msgs := [] }
      | .hOk => { emits := 1, acquires := da, breaks := false, msgs := [] }
      | .hFailOther => { emits := 0, acquires := da, breaks := false, msgs := [] }
  | .wTimeout =>
      match it.readState with
      | .hLost => { emits := 0, acquires := 1, breaks := false, msgs := [] }
      | .hOk => { emits := 0, acquires := 0, breaks := false, msgs := [] }
      | .hFailOther =>
          { emits := 0, acquires := 0, breaks := true,
            msgs := ["Device disconnected or error."] }
  | .wFailed =>
      { emits := 0, acquires := 0, breaks := true,
        msgs := ["WaitForSingleObject failed."] }

/-- Result of a run of the event-capable loop. -/
structure RunOut where
  emits : Nat
  acquires : Nat
  msgs : List String
  exit : Option Nat
deriving DecidableEq, Repr

/-- Embedding of the `RunDirectInputReader` main loop (source lines
434-486), driven by a script of per-iteration provider results.  Note that
after the loop exits — whether by the stop flag or by a `break` on the
disconnect/wait-failure paths — the function unconditionally returns 0
(source line 485). -/
def runDILoop : List DIIter → RunOut
  | [] => { emits := 0, acquires := 0, msgs := [], exit := none }
  | it :: rest =>
      if it.running = false then
        { emits := 0, acquires := 0, msgs := [], exit := some 0 }
      else
        let o := diIter it
        if o.breaks then
          { emits := o.emits, acquires := o.acquires, msgs := o.msgs,
            exit := some 0 }
        else
          let r := runDILoop rest
          { emits := o.emits + r.emits, acquires := o.acquires + r.acquires,
            msgs := o.msgs ++ r.msgs, exit := r.exit }

/-! ### Claim C5 -/

/-- C5 (confirmed).  In polled mode, starting from any remembered packet
number, two consecutive successful reads emit according to packet-number
change: the first read emits iff its packet differs from the remembered one,
the second emits iff its packet differs from the first's (the remembered
value after a successful read is always that read's packet number).  In
particular, if the two packets are identical the second read produces no
output, and a read differing from the remembered value produces exactly one
line. -/
theorem C5_polled_change_detection (lastPacket p1 p2 : Nat)
    (rest : List XIter) :
    RunXInputReader lastPacket
        ({ running := true, read := some p1 }
          :: { running := true, read := some p2 } :: rest)
      = { emitFlags := (p1 != lastPacket) :: (p2 != p1)
            :: (RunXInputReader p2 rest).emitFlags,
          msgs := (RunXInputReader p2 rest).msgs,
          exit := (RunXInputReader p2 rest).exit }
    ∧ (p2 = p1 →
        (RunXInputReader lastPacket
            ({ running := true, read := some p1 }
              :: { running := true, read := some p2 } :: rest)).emitFlags.get? 1
          = some false)
    ∧ (p1 ≠ lastPacket →
        (RunXInputReader lastPacket
            ({ running := true, read := some p1 }
              :: { running := true, read := some p2 } :: rest)).emitFlags.get? 0
          = some true) := by
  have hmain : RunXInputReader lastPacket
      ({ running := true, read := some p1 }
        :: { running := true, read := some p2 } :: rest)
    = { emitFlags := (p1 != lastPacket) :: (p2 != p1)
          :: (RunXInputReader p2 rest).emitFlags,
        msgs := (RunXInputReader p2 rest).msgs,
        exit := (RunXInputReader p2 rest).exit } := by
    simp [RunXInputReader, updateLastPacket, updateLastPacket']
  refine ⟨hmain, ?_, ?_⟩
  · intro h
    rw [hmain]
    simp [h]
  · intro h
    rw [hmain]
    simp [h]

/-- C5 witness: from remembered packet 0, reads with packets 1 then 1 — the
first (changed) read emits, the second (unchanged) read does not. -/
theorem C5_polled_change_detection_witness :
    (RunXInputReader 0
        ({ running := true, read := some 1 }
          :: { running := true, read := some 1 } :: [])).emitFlags.get? 1
        = some false
      ∧ (RunXInputReader 0
          ({ running := true, read := some 1 }
            :: { running := true, read := some 1 } :: [])).emitFlags.get? 0
          = some true :=
  ⟨(C5_polled_change_detection 0 1 1 []).2.1 rfl,
   (C5_polled_change_detection 0 1 1 []).2.2 (by decide)⟩

/-! ### Claim C6 -/

/-- C6 (confirmed).  The polled loop has exactly two terminal outcomes:
whenever it terminates, the exit code is 0 or 1; exit code 1 happens exactly
by a failed read (a disconnect notice is emitted and some running iteration
has a failed read); exit code 0 happens exactly by observing a false stop
flag (no message is emitted and some iteration has a false stop flag). -/
theorem C6_polled_terminal_outcomes (lastPacket : Nat) (s : List XIter) :
    (∀ c, (RunXInputReader lastPacket s).exit = some c → c = 0 ∨ c = 1)
      ∧ ((RunXInputReader lastPacket s).exit = some 1 →
          (RunXInputReader lastPacket s).msgs = ["Controller disconnected."]
            ∧ ∃ it ∈ s, it.running = true ∧ it.read = none)
      ∧ ((RunXInputReader lastPacket s).exit = some 0 →
          (RunXInputReader lastPacket s).msgs = []
            ∧ ∃ it ∈ s, it.running = false) := by
  induction s generalizing lastPacket with
  | nil =>
      refine ⟨?_, ?_, ?_⟩ <;> intro h <;> simp [RunXInputReader] at *
  | cons it rest ih =>
      obtain ⟨run, rd⟩ := it
      cases run with
      | false =>
          refine ⟨?_, ?_, ?_⟩
          · intro c hc
            simp [RunXInputReader] at hc
            omega
          · intro h
            simp [RunXInputReader] at h
          · intro _
            refine ⟨by simp [RunXInputReader], ?_⟩
            exact ⟨{ running := false, read := rd }, by simp, rfl⟩
      | true =>
          cases rd with
          | none =>
              refine ⟨?_, ?_, ?_⟩
              · intro c hc
                simp [RunXInputReader] at hc
                omega
              · intro _
                refine ⟨by simp [RunXInputReader], ?_⟩
                exact ⟨{ running := true, read := none }, by simp, rfl, rfl⟩
              · intro h
                simp [RunXInputReader] at h
          | some pkt =>
              have hred : RunXInputReader lastPacket
                  ({ running := true, read := some pkt } :: rest)
                = { emitFlags := (pkt != lastPacket)
                      :: (RunXInputReader pkt rest).emitFlags,
                    msgs := (RunXInputReader pkt rest).msgs,
                    exit := (RunXInputReader pkt rest).exit } := by
                simp [RunXInputReader, updateLastPacket, updateLastPacket']
              obtain ⟨ih1, ih2, ih3⟩ := ih pkt
              refine ⟨?_, ?_, ?_⟩
              · intro c hc
                rw [hred] at hc
                exact ih1 c hc
              · intro h
                rw [hred] at h ⊢
                obtain ⟨hm, it', hit', hprop⟩ := ih2 h
                exact ⟨hm, it', List.mem_cons_of_mem _ hit', hprop⟩
              · intro h
                rw [hred] at h ⊢
                obtain ⟨hm, it', hit', hprop⟩ := ih3 h
                exact ⟨hm, it', List.mem_cons_of_mem _ hit', hprop⟩

/-- C6 witness: a script that disconnects on its first running iteration
exits with code 1 and the disconnect notice; one that observes a false stop
flag exits with code 0 and no message. -/
theorem C6_polled_terminal_outcomes_witness :
    ((RunXInputReader 0 [{ running := true, read := none }]).msgs
        = ["Controller disconnected."]
      ∧ ∃ it ∈ [({ running := true, read := none } : XIter)],
          it.running = true ∧ it.read = none)
    ∧ ((RunXInputReader 0 [{ running := false, read := none }]).msgs = []
      ∧ ∃ it ∈ [({ running := false, read := none } : XIter)],
          it.running = false) :=
  ⟨(C6_polled_terminal_outcomes 0 [{ running := true, read := none }]).2.1 rfl,
   (C6_polled_terminal_outcomes 0 [{ running := false, read := none }]).2.2 rfl⟩

/-! ### Claim C3 -/

/-- C3 (counterexample).  One loop iteration in which the buffered drain
returns a state-lost result (then terminates) and the subsequent full-state
read succeeds: the state-lost detection triggers one re-acquire, but the
iteration still emits one formatted line — the loop does not "continue to
the next iteration without emitting output" on a drain-side state loss. -/
theorem C3_drain_lost_still_emits_counterexample :
    runDILoop [{ running := true, wait := .wSignal,
                 drain := [.dLost, .dDone], readState := .hOk }]
        = { emits := 1, acquires := 1, msgs := [], exit := none }
      ∧ DrainResult.dLost ∈ [DrainResult.dLost, DrainResult.dDone] := by
  exact ⟨rfl, by decide⟩

/-- C3 (amended).  On a state-lost condition returned by the full-state read
— on the signal path or the timeout path — the loop attempts exactly one
re-acquire beyond those of the drain and continues to the next iteration
without emitting.  On a state-lost returned by the buffered drain the loop
attempts exactly one re-acquire per detection but resumes draining within
the same iteration, so the iteration may still emit if the subsequent
full-state read succeeds. -/
theorem C3_single_reacquire_per_detection (it : DIIter) (rest : List DIIter) :
    (it.wait = .wSignal → it.readState = .hLost →
        diIter it = { emits := 0, acquires := drainAcquires it.drain + 1,
                      breaks := false, msgs := [] })
      ∧ (it.wait = .wTimeout → it.readState = .hLost →
          diIter it = { emits := 0, acquires := 1, breaks := false,
                        msgs := [] })
      ∧ (∀ r : List DrainResult,
          drainAcquires (.dLost :: r) = drainAcquires r + 1)
      ∧ (it.running = true → it.wait = .wSignal → it.readState = .hLost →
          runDILoop (it :: rest)
            = { emits := (runDILoop rest).emits,
                acquires := drainAcquires it.drain + 1
                  + (runDILoop rest).acquires,
                msgs := (runDILoop rest).msgs,
                exit := (runDILoop rest).exit }) := by
  obtain ⟨run, w, dr, rs⟩ := it
  refine ⟨?_, ?_, fun r => rfl, ?_⟩
  · intro hw hr
    cases hw; cases hr
    rfl
  · intro hw hr
    cases hw; cases hr
    rfl
  · intro hrun hw hr
    cases hw; cases hr; cases hrun
    simp [runDILoop, diIter]

/-- C3 amended-claim witness: a running iteration whose timeout-path read
loses the device performs exactly one re-acquire, emits nothing, and does
not break. -/
theorem C3_single_reacquire_per_detection_witness :
    diIter { running := true, wait := .wTimeout, drain := [],
             readState := .hLost }
      = { emits := 0, acquires := 1, breaks := false, msgs := [] } :=
  (C3_single_reacquire_per_detection
    { running := true, wait := .wTimeout, drain := [], readState := .hLost }
    []).2.1 rfl rfl

/-! ### Claim C4 -/

/-- C4 (code bug).  When the timeout-path read fails for a reason other than
state lost, or when the wait primitive fails, the loop does terminate and
the message is printed — but `RunDirectInputReader` then executes its final
`return 0` (source line 485), so the process exit code is 0, contradicting
both the claim and the function's own documentation ("non-zero error code on
failure", source line 356) as well as the polled reader, which returns 1 on
disconnect. -/
theorem C4_fatal_paths_return_zero :
    runDILoop [{ running := true, wait := .wTimeout, drain := [],
                 readState := .hFailOther }]
        = { emits := 0, acquires := 0,
            msgs := ["Device disconnected or error."], exit := some 0 }
      ∧ runDILoop [{ running := true, wait := .wFailed, drain := [],
                     readState := .hOk }]
          = { emits := 0, acquires := 0,
              msgs := ["WaitForSingleObject failed."], exit := some 0 } := by
  exact ⟨rfl, rfl⟩

/-! ### CLI entry point (`main` and `PrintUsageAndList`) -/

/-- The whitespace characters `std::stoi` (via `strtol`) skips before the
number. -/
def isSpaceC (c : Char) : Bool :=
  c = ' ' || c = '\t' || c = '\n' || c = '\x0b' || c = '\x0c' || c = '\r'

/-- Accumulates a decimal digit run into a number. -/
def digitsToNat (acc : Nat) : List Char → Nat
  | [] => acc
  | c :: rest => digitsToNat (acc * 10 + (c.toNat - '0'.toNat)) rest

/-- Model of `std::stoi(s)` with the default base 10 (source line 539):
leading whitespace is skipped, an optional sign is consumed, then the
longest run of decimal digits is converted.  `none` models a thrown
exception: `invalid_argument` when no digits follow (caught at source line
541), or `out_of_range` when the value exceeds the `int` range.  Trailing
non-numeric characters after the digit run are ignored, not an error. -/
def stoiModel (s : String) : Option Int :=
  let cs := s.toList.dropWhile isSpaceC
  let signed : Int × List Char :=
    match cs with
    | '+' :: r => (1, r)
    | '-' :: r => (-1, r)
    | _ => (1, cs)
  let ds := signed.2.takeWhile Char.isDigit
  if ds.isEmpty then none
  else
    let v : Int := signed.1 * (digitsToNat 0 ds : Int)
    if v < -2147483648 ∨ 2147483647 < v then none else some v

/-- The console output of the native build, abstracted to events. -/
inductive OutEvent where
  | usageText
  | noControllers
  | listEntry (index : Nat) (kind : DeviceKind) (name : String)
  | invalidArgMsg
  | outOfRangeMsg
  | selectedMsg (index : Nat) (name : String)
deriving DecidableEq, Repr

/-- Embedding of `PrintUsageAndList` (source lines 492-512): usage text,
then either the no-controllers notice (for an empty catalog) or one listing
line per device. -/
def PrintUsageAndList (cat : List DeviceInfo) : List OutEvent :=
  [.usageText] ++
    (if cat.isEmpty then [.noControllers]
     else cat.map fun d => .listEntry d.index d.kind d.name)

/-- Embedding of `main` (source lines 525-569), with the stream loop
abstracted as `runLoop` (the dispatch at lines 559-568 propagates the
reader's return value unchanged).  Zero arguments: usage plus catalog,
exit 0 (lines 532-535).  One argument: parsed with `std::stoi` — on an
exception, invalid-argument message plus catalog, exit 1 (lines 537-545);
parsed but out of range, range message plus catalog, exit 1 (lines
547-552); otherwise the selected device's stream loop runs and its return
value is the exit code (lines 554-568). -/
def mainModel (arg : Option String) (xconn : Nat → Bool)
    (dis : Option (List DIDev)) (runLoop : DeviceInfo → Nat) :
    List OutEvent × Nat :=
  match arg with
  | none => (PrintUsageAndList (EnumerateDevices xconn dis), 0)
  | some a =>
      match stoiModel a with
      | none =>
          (.invalidArgMsg :: PrintUsageAndList (EnumerateDevices xconn dis), 1)
      | some idx =>
          if idx < 0 ∨ ((EnumerateDevices xconn dis).length : Int) ≤ idx then
            (.outOfRangeMsg :: PrintUsageAndList (EnumerateDevices xconn dis),
             1)
          else
            let d := (EnumerateDevices xconn dis).getD idx.toNat default
            ([.selectedMsg d.index d.name], runLoop d)

/-! ### Claim C7 -/

/-- C7 counterexample providers: all four XInput slots connected plus two
DirectInput devices surviving the filter — a six-entry catalog. -/
def xconnAll : Nat → Bool := fun _ => true

/-- C7 counterexample DirectInput device list. -/
def disC7 : Option (List DIDev) :=
  some [{ name := "Logitech Extreme 3D Pro", guid := 11 },
        { name := "Thrustmaster T16000M", guid := 12 }]

/-- C7 (counterexample).  The argument `"5abc"` is not an integer, yet
`std::stoi` parses its digit prefix `5` without throwing, so with a
six-entry catalog `main` treats it as the valid index 5 and runs the stream
loop (whose exit code — here 7 — it propagates): no invalid-argument message
is printed and the exit code is not 1, contrary to the claim's
"non-integer argument → error plus catalog, exit 1". -/
theorem C7_prefix_parse_counterexample :
    stoiModel "5abc" = some 5
      ∧ (mainModel (some "5abc") xconnAll disC7 fun _ => 7).2 = 7
      ∧ OutEvent.invalidArgMsg
          ∉ (mainModel (some "5abc") xconnAll disC7 fun _ => 7).1 := by
  refine ⟨by decide, by decide, by decide⟩

/-- C7 (amended).  With zero arguments, `main` prints usage plus the
enumerated catalog (with the no-controllers notice when it is empty) and
exits 0.  With one argument on which `std::stoi` throws — no leading
integer, or overflow — it prints the invalid-argument error plus the
catalog and exits 1; an argument with a parseable leading integer is
treated as that integer even when followed by non-numeric characters.  A
parsed index outside the catalog prints the range error plus the catalog
and exits 1; a valid index runs the stream loop and returns its exit code
unchanged. -/
theorem C7_cli_dispatch (xconn : Nat → Bool) (dis : Option (List DIDev))
    (runLoop : DeviceInfo → Nat) :
    mainModel none xconn dis runLoop
        = (PrintUsageAndList (EnumerateDevices xconn dis), 0)
      ∧ (EnumerateDevices xconn dis = [] →
          OutEvent.noControllers ∈ (mainModel none xconn dis runLoop).1
            ∧ (mainModel none xconn dis runLoop).2 = 0)
      ∧ (∀ a, stoiModel a = none →
          mainModel (some a) xconn dis runLoop
            = (.invalidArgMsg
                :: PrintUsageAndList (EnumerateDevices xconn dis), 1))
      ∧ (∀ a idx, stoiModel a = some idx →
          (idx < 0 ∨ ((EnumerateDevices xconn dis).length : Int) ≤ idx) →
          mainModel (some a) xconn dis runLoop
            = (.outOfRangeMsg
                :: PrintUsageAndList (EnumerateDevices xconn dis), 1))
      ∧ (∀ a idx, stoiModel a = some idx → 0 ≤ idx →
          idx < ((EnumerateDevices xconn dis).length : Int) →
          (mainModel (some a) xconn dis runLoop).2
            = runLoop ((EnumerateDevices xconn dis).getD idx.toNat default))
      := by
  refine ⟨rfl, ?_, ?_, ?_, ?_⟩
  · intro h
    constructor
    · simp [mainModel, PrintUsageAndList, h]
    · rfl
  · intro a ha
    simp [mainModel, ha]
  · intro a idx ha hrange
    simp [mainModel, ha, hrange]
  · intro a idx ha h0 hlen
    have hneg : ¬ (idx < 0 ∨ ((EnumerateDevices xconn dis).length : Int) ≤ idx) := by
      push_neg
      exact ⟨h0, hlen⟩
    simp [mainModel, ha, hneg]

/-- C7 amended-claim witness: the argument `"abc"` throws in `std::stoi`,
so with no devices connected `main` prints the invalid-argument error plus
the (empty) catalog and exits 1; and with zero arguments over the empty
catalog the no-controllers notice is printed and the exit code is 0. -/
theorem C7_cli_dispatch_witness :
    (mainModel (some "abc") (fun _ => false) none fun _ => 0)
        = (.invalidArgMsg
            :: PrintUsageAndList (EnumerateDevices (fun _ => false) none), 1)
      ∧ (OutEvent.noControllers
            ∈ (mainModel none (fun _ => false) none fun _ => 0).1
          ∧ (mainModel none (fun _ => false) none fun _ => 0).2 = 0) :=
  ⟨(C7_cli_dispatch (fun _ => false) none fun _ => 0).2.2.1 "abc" (by decide),
   (C7_cli_dispatch (fun _ => false) none fun _ => 0).2.1 (by decide)⟩
